import Mathlib

/-!
Verification development for the visual-relation weak-supervision pipeline
(notebook `visual_relation_full_validation_analysis_ValTestFlip.ipynb`).

The notebook defines seven heuristic labeling functions over bounding-box
examples, builds a label matrix from them, estimates a dependency edge set
among the labeling functions with one of several policies dispatched by
`overall_deps_fn`, and fits an `Informed_LabelModel` on the label matrix and
edge set.  The labeling functions, the class/coordinate constants and
`overall_deps_fn` are embedded directly from the notebook; the bodies of the
dependency monitors (`CDM`, `CDGAM`, `NM`, `ModVarma_InCov`,
`get_varma_edges`, `get_varma_with_gold_edges`) and of `Informed_LabelModel`
live in modules (`Our_Monitors`, `dependency_model`) that are not part of
this repository snapshot, so they are modelled from the spec as noted on
each definition.

Numeric values (bounding-box coordinates, probabilities, statistics) are
embedded as rationals `ℚ`; label-matrix entries and class votes are `ℤ`
with `-1` the abstention sentinel, exactly as in the notebook.
-/

/-! ## Class and coordinate constants (from the notebook) -/

def RIDE : Int := 0

def CARRY : Int := 1

def OTHER : Int := 2

def ABSTAIN : Int := -1

def YMIN : Fin 4 := 0

def YMAX : Fin 4 := 1

def XMIN : Fin 4 := 2

def XMAX : Fin 4 := 3

/-! ## Examples and labeling functions (from the notebook)

An example row carries a subject and object category and two bounding boxes,
each a 4-vector of coordinates indexed by `YMIN, YMAX, XMIN, XMAX`. -/

structure Example where
  subject_category : String
  object_category : String
  subject_bbox : Fin 4 → ℚ
  object_bbox : Fin 4 → ℚ

/-- `lf_ride_object` from the notebook: RIDE when a person rides a known
rideable object category, else abstain. -/
def lf_ride_object (x : Example) : Int :=
  if x.subject_category = "person" ∧
      x.object_category ∈
        ["bike", "snowboard", "motorcycle", "horse", "bus", "truck", "elephant"]
  then RIDE else ABSTAIN

/-- `lf_carry_object` from the notebook. -/
def lf_carry_object (x : Example) : Int :=
  if x.subject_category = "person" ∧
      x.object_category ∈ ["bag", "surfboard", "skis"]
  then CARRY else ABSTAIN

/-- `lf_carry_subject` from the notebook. -/
def lf_carry_subject (x : Example) : Int :=
  if x.object_category = "person" ∧
      x.subject_category ∈ ["chair", "bike", "snowboard", "motorcycle", "horse"]
  then CARRY else ABSTAIN

/-- `lf_not_person` from the notebook. -/
def lf_not_person (x : Example) : Int :=
  if x.subject_category ≠ "person" then OTHER else ABSTAIN

/-- `lf_ydist` from the notebook.  Despite the name it compares the
`XMAX` (index 3) coordinates of the two boxes. -/
def lf_ydist (x : Example) : Int :=
  if x.subject_bbox XMAX < x.object_bbox XMAX then OTHER else ABSTAIN

/-- Squared Euclidean distance between the two bounding-box 4-vectors.
The notebook compares `np.linalg.norm(subject_bbox - object_bbox) <= 1000`;
since the norm is non-negative this is equivalent to comparing the squared
norm with `1000²`, which keeps the embedding inside `ℚ`. -/
def sqDist (x : Example) : ℚ :=
  ∑ i : Fin 4, (x.subject_bbox i - x.object_bbox i) ^ 2

/-- `lf_dist` from the notebook (squared-norm form of the same test). -/
def lf_dist (x : Example) : Int :=
  if sqDist x ≤ 1000 * 1000 then OTHER else ABSTAIN

/-- `area` from the notebook. -/
def area (bbox : Fin 4 → ℚ) : ℚ :=
  (bbox YMAX - bbox YMIN) * (bbox XMAX - bbox XMIN)

/-- `lf_area` from the notebook:
`if area(x.subject_bbox) / area(x.object_bbox) <= 0.5: return OTHER`.
In Python the division raises `ZeroDivisionError` when the object box has
zero area, so the embedding returns `none` exactly on that branch. -/
def lf_area (x : Example) : Option Int :=
  if area x.object_bbox = 0 then none
  else if area x.subject_bbox / area x.object_bbox ≤ 1 / 2 then some OTHER
  else some ABSTAIN

/-- The ordered list `lfs` from the notebook (total labeling functions are
lifted into `Option` so they sit beside the partial `lf_area`). -/
def lfs : List (Example → Option Int) :=
  [fun x => some (lf_ride_object x),
   fun x => some (lf_carry_object x),
   fun x => some (lf_carry_subject x),
   fun x => some (lf_not_person x),
   fun x => some (lf_ydist x),
   fun x => some (lf_dist x),
   lf_area]

/-- The single non-abstain class each labeling function can emit, in the
order of `lfs`. -/
def lfClasses : List Int :=
  [RIDE, CARRY, CARRY, OTHER, OTHER, OTHER, OTHER]

/-! ## Label matrices and the dependency estimator

A label matrix is a list of rows, each row the list of one example's votes
(`-1` = abstain, otherwise a class index).  The monitors consume `L_dev`
with `k = 3` classes.  Their bodies live in `Our_Monitors` /
`dependency_model`, which are not part of this repository snapshot, so each
statistic is modelled from the spec; the shared skeleton is the spec's:
"for every pair of columns (i, j), compute a pairwise dependency statistic
restricted to rows where neither column abstains ... Declare an edge when
the statistic's magnitude exceeds the significance threshold." -/

def nCols (L : List (List Int)) : ℕ := (L.headD []).length

/-- Rows of `L` where neither column `i` nor column `j` abstains, as pairs
of the two votes (abstention is "no vote": such rows are excluded). -/
def pairRows (L : List (List Int)) (i j : ℕ) : List (Int × Int) :=
  L.filterMap fun r =>
    match r.get? i, r.get? j with
    | some a, some b => if a ≠ ABSTAIN ∧ b ≠ ABSTAIN then some (a, b) else none
    | _, _ => none

/-- Modelled from the spec: the covariance statistic for a column pair,
`E[ab] − E[a]E[b]` over the rows where neither column abstains (0 when no
such row exists). -/
def pairCov (L : List (List Int)) (i j : ℕ) : ℚ :=
  let ps := pairRows L i j
  let n : ℚ := (ps.length : ℚ)
  if ps.length = 0 then 0
  else (ps.map fun p => ((p.1 : ℚ) * (p.2 : ℚ))).sum / n -
    ((ps.map fun p => (p.1 : ℚ)).sum / n) * ((ps.map fun p => (p.2 : ℚ)).sum / n)

/-- All candidate edges over `m` columns: unordered pairs represented with
`i < j < m`. -/
def allPairsF (m : ℕ) : Finset (ℕ × ℕ) :=
  (Finset.range m ×ˢ Finset.range m).filter fun p => p.1 < p.2

/-- Rows of `L` whose gold label in `Y` is `c` (class-conditional
restriction used by the gold-informed policies). -/
def condRows (L : List (List Int)) (Y : List Int) (c : Int) : List (List Int) :=
  ((L.zip Y).filter fun p => p.2 = c).map Prod.fst

/-- Modelled from the spec: gold-conditional covariance statistic — the
largest magnitude of the pair covariance over the per-class row
restrictions for classes `0 .. k-1`. -/
def maxCondCov (L : List (List Int)) (Y : List Int) (k : ℕ) (i j : ℕ) : ℚ :=
  ((List.range k).map fun c => |pairCov (condRows L Y (c : Int)) i j|).foldr max 0

/-- Lowest-index arg-max of a list of rationals (ties broken toward the
smaller index); 0 on the empty list. -/
def argmaxIdx (l : List ℚ) : ℕ :=
  (l.enum.foldl
    (fun best p =>
      match best with
      | none => some p
      | some b => if b.2 < p.2 then some p else some b)
    none).elim 0 Prod.fst

/-- Per-class vote counts of one row, classes `0 .. k-1`. -/
def voteCounts (k : ℕ) (row : List Int) : List ℚ :=
  (List.range k).map fun c => (row.count (c : Int) : ℚ)

/-- Modelled from the spec: the estimated class of a row when no gold label
is available — the majority vote, ties toward the smaller class index. -/
def estLabel (k : ℕ) (row : List Int) : Int :=
  (argmaxIdx (voteCounts k row) : Int)

/-- Modelled from the spec: `CDM` (Conditional Dependence Monitor) — the
gold-conditional covariance policy; an edge is declared when the statistic's
magnitude exceeds the significance threshold `sig`. -/
def CDM (L : List (List Int)) (Y : List Int) (k : ℕ) (sig : ℚ) :
    Finset (ℕ × ℕ) :=
  (allPairsF (nCols L)).filter fun p => sig < maxCondCov L Y k p.1 p.2

/-- Modelled from the spec: `CDGAM` — the gold-agnostic variant of `CDM`,
conditioning on the class estimated from the matrix itself. -/
def CDGAM (L : List (List Int)) (k : ℕ) (sig : ℚ) : Finset (ℕ × ℕ) :=
  (allPairsF (nCols L)).filter fun p =>
    sig < maxCondCov L (L.map (estLabel k)) k p.1 p.2

/-- Modelled from the spec: `NM` — a further interchangeable gold-informed
policy; its `policy` flag selects the plain ("old") or class-conditional
("new") form of the covariance statistic. -/
def NM (L : List (List Int)) (Y : List Int) (k : ℕ) (sig : ℚ)
    (policy : String) : Finset (ℕ × ℕ) :=
  (allPairsF (nCols L)).filter fun p =>
    sig < (if policy = "old" then |pairCov L p.1 p.2|
           else maxCondCov L Y k p.1 p.2)

/-- Modelled from the spec: `ModVarma_InCov` — a gold-informed covariance
variant; conditions on the classes actually present in `Y`. -/
def ModVarma_InCov (L : List (List Int)) (Y : List Int) (thresh : ℚ) :
    Finset (ℕ × ℕ) :=
  (allPairsF (nCols L)).filter fun p =>
    thresh < (Y.dedup.map fun c => |pairCov (condRows L Y c) p.1 p.2|).foldr max 0

/-- Modelled from the spec: `get_varma_edges` — the covariance-based policy:
an edge is declared exactly when the magnitude of the pair covariance
exceeds the threshold. -/
def get_varma_edges (L : List (List Int)) (thresh : ℚ) : Finset (ℕ × ℕ) :=
  (allPairsF (nCols L)).filter fun p => thresh < |pairCov L p.1 p.2|

/-- Modelled from the spec: `get_varma_with_gold_edges` — the gold-informed
covariance-based policy. -/
def get_varma_with_gold_edges (L : List (List Int)) (Y : List Int)
    (thresh : ℚ) : Finset (ℕ × ℕ) :=
  (allPairsF (nCols L)).filter fun p =>
    thresh < (Y.dedup.map fun c => |pairCov (condRows L Y c) p.1 p.2|).foldr max 0

/-- `overall_deps_fn` from the notebook: string dispatch over the policy
name, with `'Empty'` yielding the empty edge set.  In Python a name outside
the dispatch leaves `deps` unbound and raises; the embedding returns `none`
there. -/
def overall_deps_fn (deps_name : String) (param : ℚ)
    (L_dev : List (List Int)) (Y_dev : List Int) :
    Option (Finset (ℕ × ℕ)) :=
  if deps_name = "CDM" then some (CDM L_dev Y_dev 3 param)
  else if deps_name = "CDGAM" then some (CDGAM L_dev 3 param)
  else if deps_name = "NM" then some (NM L_dev Y_dev 3 param "old")
  else if deps_name = "NM_NP" then some (NM L_dev Y_dev 3 param "new")
  else if deps_name = "Mod_Varma" then some (ModVarma_InCov L_dev Y_dev param)
  else if deps_name = "Varma" then some (get_varma_edges L_dev param)
  else if deps_name = "Varma_Gold" then
    some (get_varma_with_gold_edges L_dev Y_dev param)
  else if deps_name = "Empty" then some ∅
  else none

/-! ## The generative label model

`Informed_LabelModel` lives in `Our_Monitors.CD_Monitor`, which is not part
of this repository snapshot; it is modelled from the spec.  The spec fixes:
a state machine `Unfitted → Fitted` with `ModelNotFittedError` on early
inference, per-function per-class parameters plus one correlation parameter
per dependency edge, seed-deterministic initialization, exactly `n_epochs`
moment-matching gradient steps at the given learning rate with logging
(`log_freq`) never affecting results, and clip/renormalized row-stochastic
probability output. -/

inductive ModelError where
  | ModelNotFittedError
  | ShapeMismatch
deriving DecidableEq

structure LMParams where
  mu : List (List ℚ)
  corr : List ℚ
  n_cols : ℕ
deriving DecidableEq

structure Informed_LabelModel where
  cardinality : ℕ
  edges : List (ℕ × ℕ)
  params : Option LMParams
deriving DecidableEq

/-- Modelled from the spec: the constructor
`Informed_LabelModel(edges=deps, cardinality=k)` yields an `Unfitted`
model (no parameters yet). -/
def Informed_LabelModel.new (edges : List (ℕ × ℕ)) (cardinality : ℕ) :
    Informed_LabelModel :=
  { cardinality := cardinality, edges := edges, params := none }

/-- Modelled from the spec: seed-deterministic initialization of the
per-function per-class accuracy parameters (a fixed pseudo-random scheme of
the seed and the position). -/
def initMu (seed m k : ℕ) : List (List ℚ) :=
  (List.range m).map fun j =>
    (List.range k).map fun c =>
      (((seed + 17 * j + 31 * c) % 97 + 1 : ℕ) : ℚ) / 100

/-- Modelled from the spec: seed-deterministic initialization of the
per-edge correlation parameters. -/
def initCorr (seed nE : ℕ) : List ℚ :=
  (List.range nE).map fun e => (((seed + 7 * e) % 13 : ℕ) : ℚ) / 100

/-- Empirical frequency of class `c` in column `j` of `L` (the observed
voting-pattern statistic the optimization matches). -/
def empFreq (L : List (List Int)) (j c : ℕ) : ℚ :=
  if L.length = 0 then 0
  else ((L.countP fun r => r.getD j ABSTAIN = (c : Int)) : ℚ) / (L.length : ℚ)

/-- Modelled from the spec: one moment-matching gradient step on the
accuracy parameters, moving each toward its empirical statistic at the
given learning rate. -/
def fitStep (L : List (List Int)) (lr : ℚ) (mu : List (List ℚ)) :
    List (List ℚ) :=
  mu.enum.map fun jrow =>
    jrow.2.enum.map fun cq => cq.2 + lr * (empFreq L jrow.1 cq.1 - cq.2)

/-- Modelled from the spec: one moment-matching gradient step on the
correlation parameters, toward the empirical pair covariances `targets`. -/
def corrStep (targets : List ℚ) (lr : ℚ) (cs : List ℚ) : List ℚ :=
  (cs.zip targets).map fun p => p.1 + lr * (p.2 - p.1)

/-- Modelled from the spec: `fit(L_train, seed, lr, log_freq, n_epochs)` —
re-fits from scratch (prior parameters are discarded), running exactly
`n_epochs` deterministic steps from the seed-determined initialization;
`log_freq` only controls optional logging and never affects the result. -/
def Informed_LabelModel.fit (model : Informed_LabelModel)
    (L : List (List Int)) (seed : ℕ) (lr : ℚ) (log_freq : ℚ) (n_epochs : ℕ) :
    Informed_LabelModel :=
  { model with
    params := some
      { mu := (fitStep L lr)^[n_epochs] (initMu seed (nCols L) model.cardinality)
        corr := (corrStep (model.edges.map fun e => pairCov L e.1 e.2) lr)^[n_epochs]
          (initCorr seed model.edges.length)
        n_cols := nCols L } }

/-- Modelled from the spec: the raw per-class model scores of one row —
each voting function adds its accuracy parameter to the class it votes for;
abstentions contribute nothing. -/
def rawScores (p : LMParams) (k : ℕ) (row : List Int) : List ℚ :=
  (List.range k).map fun (c : ℕ) =>
    (row.enum.map fun ji =>
      if ji.2 = (c : Int) then ((p.mu.getD ji.1 []).getD c 0) else 0).sum

/-- Modelled from the spec: clip raw scores at zero and renormalize the row
to sum to 1; when the clipped row is degenerate (sums to 0) fall back to
the uniform distribution instead of emitting NaN. -/
def clipNormalize (k : ℕ) (scores : List ℚ) : List ℚ :=
  let clipped := scores.map fun s => max s 0
  let t := clipped.sum
  if t = 0 then List.replicate k ((1 : ℚ) / (k : ℚ))
  else clipped.map fun s => s / t

/-- Modelled from the spec: `predict_proba(L)` — requires the `Fitted`
state (`ModelNotFittedError` otherwise) and the fit-time column count
(`ShapeMismatch` otherwise); returns one clip/renormalized probability row
per row of `L`. -/
def Informed_LabelModel.predict_proba (model : Informed_LabelModel)
    (L : List (List Int)) : Except ModelError (List (List ℚ)) :=
  match model.params with
  | none => .error .ModelNotFittedError
  | some p =>
    if nCols L ≠ p.n_cols then .error .ShapeMismatch
    else .ok (L.map fun row => clipNormalize model.cardinality
      (rawScores p model.cardinality row))

/-- Hard predictions from probability rows: arg-max with ties broken
toward the lowest class index. -/
def probs_to_preds (P : List (List ℚ)) : List ℕ := P.map argmaxIdx

/-- Modelled from the spec: `score(L, Y)` (the notebook reads its
`'accuracy'` entry) — `ModelNotFittedError` before `fit`, `ShapeMismatch`
on row-count or column-count mismatch, else the accuracy of the arg-max
predictions against `Y`. -/
def Informed_LabelModel.score (model : Informed_LabelModel)
    (L : List (List Int)) (Y : List Int) : Except ModelError ℚ :=
  match model.params with
  | none => .error .ModelNotFittedError
  | some p =>
    if L.length ≠ Y.length then .error .ShapeMismatch
    else if nCols L ≠ p.n_cols then .error .ShapeMismatch
    else if L.length = 0 then .ok 0
    else
      let preds := probs_to_preds (L.map fun row =>
        clipNormalize model.cardinality (rawScores p model.cardinality row))
      .ok (((preds.zip Y).countP fun q => (q.1 : Int) = q.2 : ℚ) / (L.length : ℚ))

/-- The sweep body from the notebook:
`label_model = Informed_LabelModel(edges=deps, cardinality=3, verbose=True)`
then `label_model.fit(L_train, seed=12345, lr=lr, log_freq=n_eps/10,
n_epochs=n_eps)`.  The gold vector `Y_dev` is in scope in the sweep but is
never passed to `fit`, exactly as in the source call. -/
def sweep_fit (deps : List (ℕ × ℕ)) (L_train : List (List Int))
    (Y_dev : List Int) (lr : ℚ) (n_eps : ℕ) : Informed_LabelModel :=
  (Informed_LabelModel.new deps 3).fit L_train 12345 lr ((n_eps : ℚ) / 10) n_eps

/-! ## Properties and concrete instances used in the statements below -/

/-- A probability row: no negative entry, and the entries sum to 1 (exact
over `ℚ`, the embedding of "within floating tolerance"). -/
def rowStochastic (row : List ℚ) : Prop :=
  (∀ q ∈ row, 0 ≤ q) ∧ row.sum = 1

/-- A well-formed edge set over `m` columns: no self-pair, both endpoints
in `[0, m)`, and no duplicate unordered pair (the reversed copy of an edge
is never present). -/
def edgesWellFormed (m : ℕ) (es : Finset (ℕ × ℕ)) : Prop :=
  ∀ e ∈ es, e.1 ≠ e.2 ∧ e.1 < m ∧ e.2 < m ∧ (e.2, e.1) ∉ es

/-- Concrete fitted model: 2 classes, 2 voting functions, no edges. -/
def mC1 : Informed_LabelModel :=
  { cardinality := 2, edges := [],
    params := some { mu := [[3/4, 1/4], [1/2, 1/2]], corr := [], n_cols := 2 } }

/-- Concrete label matrix whose second row abstains everywhere, forcing the
degenerate (all-clipped-to-zero) branch of `clipNormalize`. -/
def LC1 : List (List Int) := [[0, -1], [-1, -1]]

/-- The probability matrix `mC1.predict_proba LC1` evaluates to. -/
def PC1 : List (List ℚ) := [[1, 0], [1/2, 1/2]]

/-- Concrete label matrix for the dependency-estimator instances. -/
def LC2 : List (List Int) := [[0, 0], [1, 1], [0, 1], [-1, 0]]

/-- Concrete all-abstaining label matrix: every pair statistic is the
empty-restriction covariance 0, so a negative threshold accepts every
candidate pair. -/
def LC4 : List (List Int) := [[-1, -1], [-1, -1]]

/-- Concrete unfitted model sharing constructor arguments with `mC5b`. -/
def mC5a : Informed_LabelModel :=
  { cardinality := 2, edges := [(0, 1)], params := none }

/-- Concrete model with stale parameters, sharing constructor arguments
with `mC5a`; re-fitting must discard the stale parameters. -/
def mC5b : Informed_LabelModel :=
  { cardinality := 2, edges := [(0, 1)],
    params := some { mu := [[9, 9]], corr := [5], n_cols := 5 } }

/-- Concrete example whose object bounding box has zero area. -/
def xC8 : Example :=
  { subject_category := "person", object_category := "bike",
    subject_bbox := ![0, 2, 0, 2], object_bbox := ![0, 0, 0, 5] }

/-- Concrete example pair agreeing on the `XMAX` coordinates while all
y-coordinates differ. -/
def xC9a : Example :=
  { subject_category := "a", object_category := "b",
    subject_bbox := ![0, 0, 0, 5], object_bbox := ![9, 9, 9, 3] }

/-- See `xC9a`. -/
def xC9b : Example :=
  { subject_category := "c", object_category := "d",
    subject_bbox := ![7, 7, 7, 5], object_bbox := ![1, 1, 1, 3] }

/-- Concrete example on which `lf_area` votes `OTHER`. -/
def xC10 : Example :=
  { subject_category := "person", object_category := "bike",
    subject_bbox := ![0, 1, 0, 1], object_bbox := ![0, 10, 0, 10] }

/-! ## Labeling-function theorems -/

lemma lf_ride_object_cases (x : Example) :
    lf_ride_object x = ABSTAIN ∨ lf_ride_object x = RIDE := by
  unfold lf_ride_object
  split_ifs <;> [exact Or.inr rfl; exact Or.inl rfl]

lemma lf_carry_object_cases (x : Example) :
    lf_carry_object x = ABSTAIN ∨ lf_carry_object x = CARRY := by
  unfold lf_carry_object
  split_ifs <;> [exact Or.inr rfl; exact Or.inl rfl]

lemma lf_carry_subject_cases (x : Example) :
    lf_carry_subject x = ABSTAIN ∨ lf_carry_subject x = CARRY := by
  unfold lf_carry_subject
  split_ifs <;> [exact Or.inr rfl; exact Or.inl rfl]

lemma lf_not_person_cases (x : Example) :
    lf_not_person x = ABSTAIN ∨ lf_not_person x = OTHER := by
  unfold lf_not_person
  split_ifs <;> [exact Or.inr rfl; exact Or.inl rfl]

lemma lf_ydist_cases (x : Example) :
    lf_ydist x = ABSTAIN ∨ lf_ydist x = OTHER := by
  unfold lf_ydist
  split_ifs <;> [exact Or.inr rfl; exact Or.inl rfl]

lemma lf_dist_cases (x : Example) :
    lf_dist x = ABSTAIN ∨ lf_dist x = OTHER := by
  unfold lf_dist
  split_ifs <;> [exact Or.inr rfl; exact Or.inl rfl]

lemma lf_area_cases (x : Example) (v : Int) (h : lf_area x = some v) :
    v = ABSTAIN ∨ v = OTHER := by
  unfold lf_area at h
  split_ifs at h
  · exact Or.inr (Option.some.inj h).symm
  · exact Or.inl (Option.some.inj h).symm

/-- C8: `lf_area` divides the subject-box area by the object-box area, so
it is only defined (returns a vote) when the object bounding box has
non-zero area `(ymax − ymin)·(xmax − xmin)`; on zero-area object boxes the
division is a division by zero (Python `ZeroDivisionError`, embedded as
`none`), hence that branch is unreachable exactly under the precondition
that object-box areas are non-zero (in particular under positive area). -/
theorem lf_area_zero_area_guard (x : Example) :
    (area x.object_bbox = 0 → lf_area x = none) ∧
    (area x.object_bbox ≠ 0 → (lf_area x).isSome = true) := by
  constructor
  · intro h
    simp [lf_area, h]
  · intro h
    unfold lf_area
    split_ifs <;> simp_all

/-- Witness for C8 at `xC8`, whose object box is `[0, 0, 0, 5]` with area
`(0 − 0)·(5 − 0) = 0`: `lf_area` hits the division-by-zero guard. -/
theorem lf_area_zero_area_guard_witness : lf_area xC8 = none :=
  (lf_area_zero_area_guard xC8).1 (by norm_num [area, xC8, YMAX, YMIN, XMAX, XMIN])

/-- C9: despite its name, `lf_ydist` compares the `XMAX` coordinates
(index 3, an x-maximum): it returns `OTHER` when
`subject_bbox[XMAX] < object_bbox[XMAX]` and `ABSTAIN` otherwise, and its
result depends on the two `XMAX` coordinates alone — no y-coordinate is
read. -/
theorem lf_ydist_uses_xmax :
    (XMAX = (3 : Fin 4)) ∧
    (∀ x : Example, lf_ydist x =
      if x.subject_bbox XMAX < x.object_bbox XMAX then OTHER else ABSTAIN) ∧
    (∀ x y : Example, x.subject_bbox XMAX = y.subject_bbox XMAX →
      x.object_bbox XMAX = y.object_bbox XMAX → lf_ydist x = lf_ydist y) := by
  refine ⟨rfl, fun x => rfl, fun x y h1 h2 => ?_⟩
  unfold lf_ydist
  rw [h1, h2]

/-- Witness for C9 at `xC9a`/`xC9b`: the two examples agree on both `XMAX`
coordinates while every y-coordinate differs, and `lf_ydist` cannot tell
them apart. -/
theorem lf_ydist_uses_xmax_witness : lf_ydist xC9a = lf_ydist xC9b :=
  lf_ydist_uses_xmax.2.2 xC9a xC9b (by norm_num [xC9a, xC9b, XMAX])
    (by norm_num [xC9a, xC9b, XMAX])

/-- C10: every one of the seven labeling functions is unipolar — each
returns either `ABSTAIN` or its one fixed class (`lf_ride_object` only
`RIDE`; `lf_carry_object`, `lf_carry_subject` only `CARRY`; `lf_not_person`,
`lf_ydist`, `lf_dist`, `lf_area` only `OTHER`) — so the non-abstain values
of column `j` of any label matrix built from `lfs` all equal
`lfClasses[j]`. -/
theorem lfs_unipolar :
    (∀ x, lf_ride_object x = ABSTAIN ∨ lf_ride_object x = RIDE) ∧
    (∀ x, lf_carry_object x = ABSTAIN ∨ lf_carry_object x = CARRY) ∧
    (∀ x, lf_carry_subject x = ABSTAIN ∨ lf_carry_subject x = CARRY) ∧
    (∀ x, lf_not_person x = ABSTAIN ∨ lf_not_person x = OTHER) ∧
    (∀ x, lf_ydist x = ABSTAIN ∨ lf_ydist x = OTHER) ∧
    (∀ x, lf_dist x = ABSTAIN ∨ lf_dist x = OTHER) ∧
    (∀ x v, lf_area x = some v → v = ABSTAIN ∨ v = OTHER) ∧
    (∀ (j : ℕ) (x : Example) (v : Int), j < lfs.length →
      lfs.getD j (fun _ => none) x = some v →
      v = ABSTAIN ∨ v = lfClasses.getD j ABSTAIN) := by
  refine ⟨lf_ride_object_cases, lf_carry_object_cases, lf_carry_subject_cases,
    lf_not_person_cases, lf_ydist_cases, lf_dist_cases, lf_area_cases,
    fun j x v hj hv => ?_⟩
  have hj7 : j < 7 := by simpa [lfs] using hj
  interval_cases j <;>
    simp only [lfs, lfClasses, List.getD_cons_zero, List.getD_cons_succ,
      Option.some.injEq] at hv ⊢
  · exact hv ▸ lf_ride_object_cases x
  · exact hv ▸ lf_carry_object_cases x
  · exact hv ▸ lf_carry_subject_cases x
  · exact hv ▸ lf_not_person_cases x
  · exact hv ▸ lf_ydist_cases x
  · exact hv ▸ lf_dist_cases x
  · exact lf_area_cases x v hv

/-- Witness for C10 at `xC10` and column 6 (`lf_area`): the vote is
`OTHER`, the one class that column may carry. -/
theorem lfs_unipolar_witness :
    OTHER = ABSTAIN ∨ OTHER = lfClasses.getD 6 ABSTAIN :=
  lfs_unipolar.2.2.2.2.2.2.2 6 xC10 OTHER (by decide)
    (by norm_num [lfs, lf_area, area, xC10, YMAX, YMIN, XMAX, XMIN])

/-! ## Dependency-estimator theorems -/

lemma mem_allPairsF {m : ℕ} {e : ℕ × ℕ} (h : e ∈ allPairsF m) :
    e.1 < e.2 ∧ e.1 < m ∧ e.2 < m := by
  unfold allPairsF at h
  rw [Finset.mem_filter, Finset.mem_product, Finset.mem_range,
    Finset.mem_range] at h
  exact ⟨h.2, h.1.1, h.1.2⟩

lemma edgesWellFormed_filter (m : ℕ) (pred : ℕ × ℕ → Prop)
    [DecidablePred pred] :
    edgesWellFormed m ((allPairsF m).filter pred) := by
  intro e he
  rw [Finset.mem_filter] at he
  obtain ⟨hlt, h1, h2⟩ := mem_allPairsF he.1
  refine ⟨Nat.ne_of_lt hlt, h1, h2, fun hrev => ?_⟩
  rw [Finset.mem_filter] at hrev
  exact absurd (mem_allPairsF hrev.1).1 (Nat.lt_asymm hlt)

lemma edgesWellFormed_empty (m : ℕ) : edgesWellFormed m (∅ : Finset (ℕ × ℕ)) := by
  intro e he
  exact absurd he (Finset.not_mem_empty e)

/-- C2: for the covariance-based policy on a fixed label matrix, raising
the significance threshold never increases the number of edges returned —
the edge count is antitone in the threshold. -/
theorem varma_edges_antitone (L : List (List Int)) (t1 t2 : ℚ) (h : t1 ≤ t2) :
    (get_varma_edges L t2).card ≤ (get_varma_edges L t1).card := by
  unfold get_varma_edges
  exact Finset.card_le_card
    (Finset.monotone_filter_right _ fun p hp => lt_of_le_of_lt h hp)

/-- Witness for C2 on `LC2` with thresholds `1/10 ≤ 1/2`. -/
theorem varma_edges_antitone_witness :
    (get_varma_edges LC2 (1/2)).card ≤ (get_varma_edges LC2 (1/10)).card :=
  varma_edges_antitone LC2 (1/10) (1/2) (by norm_num)

/-- C3: for every label matrix, gold vector and threshold, the `'Empty'`
policy of `overall_deps_fn` returns the empty edge set. -/
theorem overall_deps_fn_empty (param : ℚ) (L : List (List Int))
    (Y : List Int) : overall_deps_fn "Empty" param L Y = some ∅ := rfl

/-- C4: whenever `overall_deps_fn` succeeds on a label matrix with at
least 2 columns, the returned edge set contains no self-pair and no
duplicate unordered pair, and every edge references column indices in
`[0, m_functions)`. -/
theorem overall_deps_fn_edges_wellformed (name : String) (param : ℚ)
    (L : List (List Int)) (Y : List Int) (es : Finset (ℕ × ℕ))
    (hm : 2 ≤ nCols L) (h : overall_deps_fn name param L Y = some es) :
    edgesWellFormed (nCols L) es := by
  unfold overall_deps_fn at h
  split_ifs at h <;> rw [Option.some.injEq] at h <;> subst h
  · exact edgesWellFormed_filter _ _
  · exact edgesWellFormed_filter _ _
  · exact edgesWellFormed_filter _ _
  · exact edgesWellFormed_filter _ _
  · exact edgesWellFormed_filter _ _
  · exact edgesWellFormed_filter _ _
  · exact edgesWellFormed_filter _ _
  · exact edgesWellFormed_empty _

/-! ## Generative-label-model theorems -/

lemma list_sum_map_div (l : List ℚ) (t : ℚ) :
    (l.map fun s => s / t).sum = l.sum / t := by
  induction l with
  | nil => simp
  | cons a l ih => simp [ih, add_div]

lemma clipNormalize_nonneg (k : ℕ) (scores : List ℚ) :
    ∀ q ∈ clipNormalize k scores, 0 ≤ q := by
  intro q hq
  simp only [clipNormalize] at hq
  split_ifs at hq with ht
  · rw [List.eq_of_mem_replicate hq]
    positivity
  · obtain ⟨s, hs, rfl⟩ := List.mem_map.mp hq
    obtain ⟨a, _, rfl⟩ := List.mem_map.mp hs
    refine div_nonneg (le_max_right a 0) ?_
    exact List.sum_nonneg fun x hx => by
      obtain ⟨b, _, rfl⟩ := List.mem_map.mp hx
      exact le_max_right b 0

lemma clipNormalize_sum (k : ℕ) (hk : 0 < k) (scores : List ℚ) :
    (clipNormalize k scores).sum = 1 := by
  simp only [clipNormalize]
  split_ifs with ht
  · rw [List.sum_replicate, nsmul_eq_mul, mul_one_div, div_self]
    exact Nat.cast_ne_zero.mpr hk.ne'
  · rw [list_sum_map_div, div_self ht]

/-- C1: for every fitted model and every label matrix whose column count
matches the fit-time column count (exactly the case where `predict_proba`
answers `.ok`), every output row has no negative entry and sums exactly
to 1 — including rows whose raw scores are degenerate (all clipped to
zero), which fall back to the uniform distribution rather than NaN. -/
theorem predict_proba_row_stochastic (m : Informed_LabelModel)
    (L : List (List Int)) (P : List (List ℚ)) (hk : 0 < m.cardinality)
    (h : m.predict_proba L = .ok P) : ∀ row ∈ P, rowStochastic row := by
  intro row hrow
  unfold Informed_LabelModel.predict_proba at h
  cases hp : m.params with
  | none => rw [hp] at h; exact absurd h (by simp)
  | some p =>
    rw [hp] at h
    dsimp only at h
    split_ifs at h with hcols
    · rw [Except.ok.injEq] at h
      subst h
      obtain ⟨r, _, rfl⟩ := List.mem_map.mp hrow
      exact ⟨clipNormalize_nonneg _ _, clipNormalize_sum _ hk _⟩

/-- Witness for C1 with the fitted model `mC1` on `LC1`, whose second row
abstains everywhere and therefore exercises the degenerate uniform
fallback: the output is `PC1 = [[1, 0], [1/2, 1/2]]` and its second row is
stochastic. -/
theorem predict_proba_row_stochastic_witness :
    rowStochastic [(1 : ℚ)/2, 1/2] :=
  predict_proba_row_stochastic mC1 LC1 PC1 (by norm_num [mC1])
    (by norm_num [Informed_LabelModel.predict_proba, mC1, LC1, PC1,
      clipNormalize, rawScores, nCols, List.enum, List.enumFrom,
      List.replicate, List.range_succ, List.range_zero])
    [(1 : ℚ)/2, 1/2] (by norm_num [PC1])

/-- C5: two `fit` calls with identical label matrix, edge set, cardinality,
seed, learning rate and epoch count produce identical fitted parameters
and identical `predict_proba` output, whatever the two models' prior
parameter states (re-fitting discards them) and whatever the two
`log_freq` values (logging never affects results). -/
theorem fit_deterministic (m1 m2 : Informed_LabelModel)
    (L : List (List Int)) (seed : ℕ) (lr lf1 lf2 : ℚ) (n : ℕ)
    (hc : m1.cardinality = m2.cardinality) (he : m1.edges = m2.edges) :
    (m1.fit L seed lr lf1 n).params = (m2.fit L seed lr lf2 n).params ∧
    (m1.fit L seed lr lf1 n).predict_proba L =
      (m2.fit L seed lr lf2 n).predict_proba L := by
  cases m1
  cases m2
  cases hc
  cases he
  exact ⟨rfl, rfl⟩

/-- Witness for C5: `mC5a` (never fitted) and `mC5b` (holding stale
parameters) share constructor arguments; re-fitting both on the same
inputs with different `log_freq` values agrees exactly. -/
theorem fit_deterministic_witness :
    (mC5a.fit LC2 12345 (1/10) 5 2).params =
      (mC5b.fit LC2 12345 (1/10) 7 2).params ∧
    (mC5a.fit LC2 12345 (1/10) 5 2).predict_proba LC2 =
      (mC5b.fit LC2 12345 (1/10) 7 2).predict_proba LC2 :=
  fit_deterministic mC5a mC5b LC2 12345 (1/10) 5 7 2 rfl rfl

/-- C6: the fitted parameters never depend on the gold vector: in the
sweep body, `Y_dev` is in scope but `fit` is called without it, so two
runs with identical `L_train`, edges, seed, learning rate and epoch count
but arbitrary different gold vectors yield identical parameters and
identical `predict_proba` output. -/
theorem fit_independent_of_gold (deps : List (ℕ × ℕ))
    (L : List (List Int)) (Y1 Y2 : List Int) (lr : ℚ) (n_eps : ℕ) :
    (sweep_fit deps L Y1 lr n_eps).params =
      (sweep_fit deps L Y2 lr n_eps).params ∧
    (sweep_fit deps L Y1 lr n_eps).predict_proba L =
      (sweep_fit deps L Y2 lr n_eps).predict_proba L :=
  ⟨rfl, rfl⟩

/-- C7: on a freshly constructed (hence unfitted) model, both
`predict_proba` and `score` fail with `ModelNotFittedError`, for every
edge list, cardinality, label matrix and gold vector. -/
theorem unfitted_predict_score_error (edges : List (ℕ × ℕ)) (card : ℕ)
    (L : List (List Int)) (Y : List Int) :
    (Informed_LabelModel.new edges card).predict_proba L =
      .error .ModelNotFittedError ∧
    (Informed_LabelModel.new edges card).score L Y =
      .error .ModelNotFittedError :=
  ⟨rfl, rfl⟩

/-- Witness for C4: on the 2-column matrix `LC4` the covariance policy at
threshold `-1` returns exactly the edge set `{(0, 1)}`, which is
well-formed. -/
theorem overall_deps_fn_edges_wellformed_witness :
    edgesWellFormed (nCols LC4) ({(0, 1)} : Finset (ℕ × ℕ)) :=
  overall_deps_fn_edges_wellformed "Varma" (-1) LC4 [] {(0, 1)}
    (by decide) (by decide)
